import Mathlib

/-!
Verification development for the GitHub profile-card worker
(`src/index.ts` plus the spec of its missing collaborator modules).

The request orchestrator (`app.get("/rpg/:username")`, `app.get("/preview/:username")`,
`parseSizeOverride`, option assembly) is embedded directly from `src/index.ts`.
The collaborator modules it imports (`github.ts`, `cache.ts`, `svg.ts`,
`templates/rpg.ts`) are not present in the repository snapshot; those
definitions are modelled from the spec, each marked
`Modelled from the spec:` in its doc comment.

Numbers from query strings are modelled as rationals (ℚ); the external cache
is a partial map from usernames to user records (an entry present = fresh
within TTL, expired or missing = `none`, matching the spec where the backend
itself enforces expiry); the upstream GitHub API is an oracle
`String → UpstreamResult` supplied as part of the environment.
-/

namespace CardWorker

/-- Normalized snapshot of a public profile (spec §3 `UserRecord`). -/
structure UserRecord where
  login : String
  displayName : Option String
  bio : Option String
  publicRepoCount : ℕ
  followerCount : ℕ
  followingCount : ℕ
  avatarUrl : String
  profileUrl : String
  createdAt : String
  deriving Repr, DecidableEq

/-- Card color theme (spec §3 `RenderOptions.theme`). -/
inductive Theme where
  | dark
  | light
  deriving Repr, DecidableEq

/-- Card label language (spec §3 `RenderOptions.language`). -/
inductive Lang where
  | en
  | ja
  deriving Repr, DecidableEq

/-- The fixed set of named text roles whose size can be overridden
(spec §3: title, level, username, bio, stat-label, stat-value, bar-label). -/
inductive Role where
  | title
  | level
  | username
  | bio
  | statLabel
  | statValue
  | barLabel
  deriving Repr, DecidableEq

/-- Per-role size multipliers as assembled by the route handler
(`sizeOverrides` in `index.ts`); `none` = the parameter was absent or
discarded, treated as multiplier 1.0. -/
structure SizeOverrides where
  title : Option ℚ := none
  level : Option ℚ := none
  username : Option ℚ := none
  bio : Option ℚ := none
  statLabel : Option ℚ := none
  statValue : Option ℚ := none
  barLabel : Option ℚ := none
  deriving Repr, DecidableEq

/-- Rendering options handed to the template renderer (`CardOptions` in
`index.ts`). The source wraps an empty `sizeOverrides` object into
`undefined`; both are modelled as the all-`none` record, which the renderer
treats identically (every absent entry defaults to 1.0). -/
structure CardOptions where
  theme : Theme
  lang : Lang
  font : String
  sizeOverrides : SizeOverrides
  deriving Repr, DecidableEq

/-- Upstream failure taxonomy (spec §7). -/
inductive ErrorKind where
  | notFound
  | rateLimited
  | upstreamError
  | invalidUsername
  deriving Repr, DecidableEq

/-- Tagged fetch outcome (spec §3 `FetchOutcome`): success with a record, or
a typed error carrying the HTTP status the orchestrator will answer with. -/
inductive FetchOutcome where
  | ok (user : UserRecord)
  | err (kind : ErrorKind) (status : ℕ)
  deriving Repr, DecidableEq

/-- What the upstream GitHub API oracle can answer for one lookup: an HTTP
response with a status and (for 2xx) a parsed profile body, or a
network/transport failure. -/
inductive UpstreamResult where
  | response (status : ℕ) (user : UserRecord)
  | failure
  deriving Repr

/-- The handler's environment: the freshness cache (`GITHUB_CACHE` KV binding,
viewed as the map of currently fresh entries) and the upstream API. -/
structure Env where
  cache : String → Option UserRecord
  upstream : String → UpstreamResult

/-- Query parameters of a `/rpg/:username` request as the handler reads them
(`c.req.query(...)`: `none` = parameter absent). -/
structure Query where
  theme : Option String := none
  lang : Option String := none
  font : Option String := none
  szTitle : Option String := none
  szLevel : Option String := none
  szUsername : Option String := none
  szBio : Option String := none
  szStatLabel : Option String := none
  szStatValue : Option String := none
  szBarLabel : Option String := none
  deriving Repr, DecidableEq

/-! ### Username grammar (modelled: `GITHUB_USERNAME_REGEX` lives in the
missing `github.ts`) -/

/-- Characters the username grammar admits: ASCII alphanumerics and the
hyphen. -/
def isUsernameChar (c : Char) : Bool :=
  c.isAlphanum || c = '-'

/-- No two consecutive hyphens (the grammar allows only single embedded
hyphens). -/
def noDoubleHyphen : List Char → Bool
  | c1 :: c2 :: rest => !(c1 = '-' && c2 = '-') && noDoubleHyphen (c2 :: rest)
  | _ => true

/-- Modelled from the spec: `GITHUB_USERNAME_REGEX.test` from the missing
`github.ts` — "alphanumeric and single embedded hyphens, not starting/ending
with a hyphen, bounded length" (§4.2); the length bound is GitHub's 39. -/
def validUsername (s : String) : Bool :=
  let l := s.data
  decide (0 < l.length) && decide (l.length ≤ 39) &&
  l.all isUsernameChar &&
  !(l.head? = some '-') && !(l.getLast? = some '-') &&
  noDoubleHyphen l

/-! ### Decimal parsing and size overrides -/

/-- Numeric value of a list of decimal digit characters. -/
def natOfDigits (l : List Char) : ℕ :=
  l.foldl (fun n c => n * 10 + (c.toNat - 48)) 0

/-- Modelled from the spec: JavaScript `parseFloat` (a platform builtin, not
repository code) restricted to plain decimal literals `[-]digits[.digits]`;
every other input is NaN, modelled as `none`. -/
def parseDecimal (s : String) : Option ℚ :=
  let (sign, rest) : ℚ × List Char :=
    match s.data with
    | '-' :: r => (-1, r)
    | r => (1, r)
  let intPart := rest.takeWhile Char.isDigit
  let rest2 := rest.dropWhile Char.isDigit
  match rest2 with
  | [] =>
      if intPart.isEmpty then none
      else some (sign * (natOfDigits intPart : ℚ))
  | '.' :: frac =>
      if frac.all Char.isDigit && !(intPart.isEmpty && frac.isEmpty) then
        some (sign * ((natOfDigits intPart : ℚ) +
          (natOfDigits frac : ℚ) / (10 ^ frac.length : ℚ)))
      else none
  | _ => none

/-- `parseSizeOverride` from `index.ts`: `undefined`/empty input and values
that are NaN or outside `[0.3, 2.0]` yield `undefined` (`none`); in-range
values pass through. -/
def parseSizeOverride (value : Option String) : Option ℚ :=
  match value with
  | none => none
  | some s =>
      if s = "" then none
      else
        match parseDecimal s with
        | none => none
        | some num => if num < 3/10 ∨ num > 2 then none else some num

/-! ### Font registry and option assembly -/

/-- One entry of the font registry (spec §4.3: display name, font-family
value, category). -/
structure FontConfig where
  name : String
  fontFamily : String
  category : String
  deriving Repr, DecidableEq

/-- Modelled from the spec: the fixed font registry `FONTS` from the missing
`svg.ts` — "a fixed registry mapping key → (display name, font-family value,
category such as monospace/pixel)". The two pixel keys are named in the
source preview page; the remaining entries are representative. -/
def FONTS : List (String × FontConfig) :=
  [("courier-new", ⟨"Courier New", "Courier New, monospace", "monospace"⟩),
   ("press-start-2p", ⟨"Press Start 2P", "Press Start 2P, monospace", "pixel"⟩),
   ("silkscreen", ⟨"Silkscreen", "Silkscreen, monospace", "pixel"⟩),
   ("jetbrains-mono", ⟨"JetBrains Mono", "JetBrains Mono, monospace", "monospace"⟩)]

/-- Modelled from the spec: the default registry key (`DEFAULT_FONT` from the
missing `svg.ts`), used whenever the requested key is absent from the set. -/
def DEFAULT_FONT : String := "courier-new"

/-- Font validation from `index.ts`:
`const font = fontParam && FONTS[fontParam] ? fontParam : DEFAULT_FONT`
(an absent or empty parameter is falsy; a key missing from the registry gives
a falsy lookup). -/
def selectFont (fontParam : Option String) : String :=
  match fontParam with
  | none => DEFAULT_FONT
  | some f => if f ≠ "" ∧ (FONTS.lookup f).isSome then f else DEFAULT_FONT

/-- Option assembly from `index.ts` lines 63–94: theme is `light` exactly on
`theme=light`, language is `ja` exactly on `lang=ja`, font is validated
against the registry, and each `sz_*` parameter goes through
`parseSizeOverride`. -/
def mkOptions (q : Query) : CardOptions where
  theme := if q.theme = some "light" then Theme.light else Theme.dark
  lang := if q.lang = some "ja" then Lang.ja else Lang.en
  font := selectFont q.font
  sizeOverrides :=
    { title := parseSizeOverride q.szTitle
      level := parseSizeOverride q.szLevel
      username := parseSizeOverride q.szUsername
      bio := parseSizeOverride q.szBio
      statLabel := parseSizeOverride q.szStatLabel
      statValue := parseSizeOverride q.szStatValue
      barLabel := parseSizeOverride q.szBarLabel }

/-- The raw `sz_*` query parameter corresponding to a text role. -/
def szQuery (q : Query) : Role → Option String
  | Role.title => q.szTitle
  | Role.level => q.szLevel
  | Role.username => q.szUsername
  | Role.bio => q.szBio
  | Role.statLabel => q.szStatLabel
  | Role.statValue => q.szStatValue
  | Role.barLabel => q.szBarLabel

/-- The stored override for a text role. -/
def overrideFor (o : SizeOverrides) : Role → Option ℚ
  | Role.title => o.title
  | Role.level => o.level
  | Role.username => o.username
  | Role.bio => o.bio
  | Role.statLabel => o.statLabel
  | Role.statValue => o.statValue
  | Role.barLabel => o.barLabel

/-! ### Template renderer (modelled: `svg.ts` / `templates/rpg.ts` are
missing from the snapshot) -/

/-- XML-special characters escaped. -/
def escapeXmlChar (c : Char) : String :=
  if c = '&' then "&amp;"
  else if c = '<' then "&lt;"
  else if c = '>' then "&gt;"
  else if c = Char.ofNat 34 then "&quot;"
  else if c = Char.ofNat 39 then "&#39;"
  else String.singleton c

/-- Modelled from the spec: `escapeXml` from the missing `svg.ts` — every
piece of user-supplied text is escaped for the output markup's special
characters before embedding (§4.3). -/
def escapeXml (s : String) : String :=
  String.join (s.data.map escapeXmlChar)

/-- Modelled from the spec: role-specific base font sizes (§4.3). The spec
fixes their existence, not their values; these are representative constants. -/
def baseSize : Role → ℚ
  | Role.title => 20
  | Role.level => 14
  | Role.username => 16
  | Role.bio => 12
  | Role.statLabel => 12
  | Role.statValue => 12
  | Role.barLabel => 10

/-- Rendered font size of a text role: role base size times the corresponding
override multiplier, defaulting to 1.0 when absent (§4.3). -/
def roleFontSize (opts : CardOptions) (r : Role) : ℚ :=
  baseSize r * (overrideFor opts.sizeOverrides r).getD 1

/-- Modelled from the spec: the derived "level" stat, computed from account
age and/or activity counters (§4.3); representative formula over the
counters. -/
def levelOf (u : UserRecord) : ℕ :=
  1 + (u.publicRepoCount + u.followerCount / 10)

/-- One positioned text element of the card: its role, its rendered font
size, and its (already escaped) content. -/
structure SvgTextElem where
  role : Role
  fontSize : ℚ
  content : String
  deriving Repr, DecidableEq

/-- The card as structured markup before serialization: fixed canvas
dimensions, theme, and the vertical arrangement of text regions (§4.3). -/
structure SvgCard where
  width : ℕ
  height : ℕ
  theme : Theme
  font : String
  texts : List SvgTextElem
  deriving Repr, DecidableEq

/-- Modelled from the spec: the layout step of `generateRpgCard` from the
missing `templates/rpg.ts` — fixed canvas, one region per text role, each at
its base size scaled by the role's override, all user-supplied text escaped
(§4.3). -/
def buildCard (user : UserRecord) (opts : CardOptions) : SvgCard where
  width := 400
  height := 300
  theme := opts.theme
  font := opts.font
  texts :=
    [⟨Role.title, roleFontSize opts Role.title,
        escapeXml (user.displayName.getD user.login)⟩,
     ⟨Role.level, roleFontSize opts Role.level,
        "LV " ++ toString (levelOf user)⟩,
     ⟨Role.username, roleFontSize opts Role.username, escapeXml user.login⟩,
     ⟨Role.bio, roleFontSize opts Role.bio, escapeXml (user.bio.getD "")⟩,
     ⟨Role.statLabel, roleFontSize opts Role.statLabel, "REPOS"⟩,
     ⟨Role.statValue, roleFontSize opts Role.statValue,
        toString user.publicRepoCount⟩,
     ⟨Role.barLabel, roleFontSize opts Role.barLabel,
        toString user.followerCount ++ " / " ++ toString user.followingCount⟩]

/-- Serialize one text element. -/
def renderTextElem (e : SvgTextElem) : String :=
  "<text font-size=\"" ++ toString e.fontSize ++ "\">" ++ e.content ++ "</text>"

/-- Background color of a theme's palette (§4.3, table lookup). -/
def themeBackground : Theme → String
  | Theme.dark => "#1a1a2e"
  | Theme.light => "#f5f5f5"

/-- Serialize a structured card to SVG markup. -/
def renderSvg (c : SvgCard) : String :=
  "<svg xmlns=\"http://www.w3.org/2000/svg\" width=\"" ++ toString c.width ++
  "\" height=\"" ++ toString c.height ++ "\" fill=\"" ++
  themeBackground c.theme ++ "\" font-family=\"" ++ c.font ++ "\">" ++
  String.join (c.texts.map renderTextElem) ++ "</svg>"

/-- Modelled from the spec: `generateRpgCard` from the missing
`templates/rpg.ts` — a pure function mapping (user record, rendering
options) to SVG markup (§4.3). -/
def generateRpgCard (user : UserRecord) (opts : CardOptions) : String :=
  renderSvg (buildCard user opts)

/-- Human-readable message for an error kind (§4.3). -/
def errorMessage : ErrorKind → String
  | ErrorKind.notFound => "user not found"
  | ErrorKind.rateLimited => "rate limited, try again later"
  | ErrorKind.upstreamError => "GitHub API error"
  | ErrorKind.invalidUsername => "invalid username"

/-- Modelled from the spec: `createErrorSvg` from the missing `svg.ts` — a
minimal themed card carrying a message derived from the error kind; by its
very signature it takes no user record and so cannot read any user-record
field (§4.3). -/
def createErrorSvg (kind : ErrorKind) (theme : Theme) : String :=
  "<svg xmlns=\"http://www.w3.org/2000/svg\" width=\"400\" height=\"120\" fill=\"" ++
  themeBackground theme ++ "\"><text font-size=\"14\">" ++
  errorMessage kind ++ "</text></svg>"

/-- Whether the first list of characters starts the second. -/
def startsWithChars : List Char → List Char → Bool
  | [], _ => true
  | _ :: _, [] => false
  | p :: ps, c :: cs => p = c && startsWithChars ps cs

/-- A string is a well-formed SVG document for our purposes when it opens
with an `svg` element that is closed at the very end. -/
def isSvgDocument (s : String) : Bool :=
  startsWithChars "<svg".data s.data &&
  startsWithChars "</svg>".data.reverse s.data.reverse

/-! ### Upstream client (modelled: `github.ts` is missing) -/

/-- Result of one `fetchGitHubUser` call: the typed outcome plus whether a
network call was actually issued (invalid usernames are rejected locally,
§4.2). -/
structure FetchResult where
  outcome : FetchOutcome
  networkCalled : Bool
  deriving Repr

/-- Modelled from the spec: `fetchGitHubUser` from the missing `github.ts`
(§4.2) — reject grammar violations locally as `InvalidUsername` (400) with
no network call; otherwise issue the single upstream lookup and classify:
404 → `NotFound` (404), 403/429 → `RateLimited` (429), 2xx → `Ok` with the
parsed record, anything else (including transport failure) →
`UpstreamError` with a generic 500. -/
def fetchGitHubUser (upstream : String → UpstreamResult) (username : String) :
    FetchResult :=
  if validUsername username then
    match upstream username with
    | UpstreamResult.failure =>
        ⟨FetchOutcome.err ErrorKind.upstreamError 500, true⟩
    | UpstreamResult.response st u =>
        if st = 404 then ⟨FetchOutcome.err ErrorKind.notFound 404, true⟩
        else if st = 403 ∨ st = 429 then
          ⟨FetchOutcome.err ErrorKind.rateLimited 429, true⟩
        else if 200 ≤ st ∧ st < 300 then ⟨FetchOutcome.ok u, true⟩
        else ⟨FetchOutcome.err ErrorKind.upstreamError 500, true⟩
  else ⟨FetchOutcome.err ErrorKind.invalidUsername 400, false⟩

/-! ### Request orchestrator (`index.ts`, present in the snapshot) -/

/-- An HTTP response as the handler builds it: status, body, and the two
headers it sets. -/
structure HttpResponse where
  status : ℕ
  body : String
  contentType : String
  cacheControl : String
  deriving Repr, DecidableEq

/-- Observable outcome of one `/rpg/:username` request: the response, the
effect trace (upstream network call, cache read, cache write), whether the
card (as opposed to an error card) was served, and the cache state after the
fire-and-forget write completes. -/
structure RpgResult where
  response : HttpResponse
  succeeded : Bool
  upstreamCalled : Bool
  cacheRead : Bool
  cacheWritten : Bool
  cacheAfter : String → Option UserRecord

/-- The `/rpg/:username` route from `index.ts` lines 60–129: assemble
options, read the cache (unconditionally, line 97), on miss call
`fetchGitHubUser`; a typed failure becomes a `createErrorSvg` body with the
outcome's status and `Cache-Control: no-cache`; success caches the record
(fire and forget) and renders the card with status 200 and
`Cache-Control: public, max-age=300`; both carry
`Content-Type: image/svg+xml`. -/
def handleRpg (env : Env) (username : String) (q : Query) : RpgResult :=
  let options := mkOptions q
  match env.cache username with
  | some user =>
      { response := ⟨200, generateRpgCard user options, "image/svg+xml",
          "public, max-age=300"⟩
        succeeded := true
        upstreamCalled := false
        cacheRead := true
        cacheWritten := false
        cacheAfter := env.cache }
  | none =>
      let fr := fetchGitHubUser env.upstream username
      match fr.outcome with
      | FetchOutcome.err kind st =>
          { response := ⟨st, createErrorSvg kind options.theme,
              "image/svg+xml", "no-cache"⟩
            succeeded := false
            upstreamCalled := fr.networkCalled
            cacheRead := true
            cacheWritten := false
            cacheAfter := env.cache }
      | FetchOutcome.ok user =>
          { response := ⟨200, generateRpgCard user options, "image/svg+xml",
              "public, max-age=300"⟩
            succeeded := true
            upstreamCalled := fr.networkCalled
            cacheRead := true
            cacheWritten := true
            cacheAfter := fun k =>
              if k = username then some user else env.cache k }

/-- Observable outcome of one `/preview/:username` request. -/
structure PreviewResult where
  status : ℕ
  body : String
  isHtml : Bool
  deriving Repr, DecidableEq

/-- Modelled portion of the preview page of `index.ts` lines 148–496 (the
full HTML template, abbreviated to its identifying skeleton with the escaped
username interpolated where the source interpolates it). -/
def previewHtml (username : String) : String :=
  "<!DOCTYPE html><html lang=\"en\"><head><title>GitHub Profile Card - " ++
  username ++ "</title></head><body><img src=\"/rpg/" ++ username ++
  "?theme=dark&font=" ++ DEFAULT_FONT ++ "\" /></body></html>"

/-- The `/preview/:username` route from `index.ts` lines 132–499: the raw
username is validated against `GITHUB_USERNAME_REGEX` and rejected with a
400 text response before any rendering; otherwise the HTML page is built
over the escaped username. -/
def handlePreview (username : String) : PreviewResult :=
  if validUsername username then
    ⟨200, previewHtml (escapeXml username), true⟩
  else
    ⟨400, "Invalid username format", false⟩

/-! ### Helper lemmas and concrete fixtures -/

/-- The status the spec assigns to each error kind: 400 invalid username,
404 not found, 429 rate limited, a generic 4xx/5xx otherwise. -/
def kindStatusOk (k : ErrorKind) (st : ℕ) : Prop :=
  match k with
  | ErrorKind.invalidUsername => st = 400
  | ErrorKind.notFound => st = 404
  | ErrorKind.rateLimited => st = 429
  | ErrorKind.upstreamError => 400 ≤ st ∧ st ≤ 599

set_option maxRecDepth 4000

theorem errorSvg_isSvg (k : ErrorKind) (t : Theme) :
    isSvgDocument (createErrorSvg k t) = true := by
  cases k <;> cases t <;> decide

theorem fetch_err_kindStatus (up : String → UpstreamResult) (u : String)
    (k : ErrorKind) (st : ℕ)
    (h : (fetchGitHubUser up u).outcome = FetchOutcome.err k st) :
    kindStatusOk k st := by
  unfold fetchGitHubUser at h
  cases hv : validUsername u <;> rw [hv] at h
  · simp at h
    obtain ⟨hk, hs⟩ := h
    subst hk; subst hs; rfl
  · cases hr : up u <;> rw [hr] at h
    · rename_i st' user
      by_cases h404 : st' = 404
      · simp [h404] at h
        obtain ⟨hk, hs⟩ := h
        subst hk; subst hs; rfl
      · by_cases hrl : st' = 403 ∨ st' = 429
        · simp [h404, hrl] at h
          obtain ⟨hk, hs⟩ := h
          subst hk; subst hs; rfl
        · by_cases h2xx : 200 ≤ st' ∧ st' < 300
          · simp [h404, hrl, h2xx] at h
          · simp [h404, hrl, h2xx] at h
            obtain ⟨hk, hs⟩ := h
            subst hk; subst hs
            exact ⟨by norm_num, by norm_num⟩
    · simp at h
      obtain ⟨hk, hs⟩ := h
      subst hk; subst hs
      exact ⟨by norm_num, by norm_num⟩

theorem handleRpg_status_indep (env : Env) (username : String) (q q' : Query) :
    (handleRpg env username q).response.status =
    (handleRpg env username q').response.status := by
  unfold handleRpg
  cases h : env.cache username
  · cases h2 : (fetchGitHubUser env.upstream username).outcome <;> simp [h2]
  · simp

theorem override_eq_parse (q : Query) (r : Role) :
    overrideFor (mkOptions q).sizeOverrides r = parseSizeOverride (szQuery q r) := by
  cases r <;> rfl

theorem buildCard_fontSize (u : UserRecord) (opts : CardOptions)
    (e : SvgTextElem) (he : e ∈ (buildCard u opts).texts) :
    e.fontSize = roleFontSize opts e.role := by
  simp [buildCard] at he
  rcases he with h | h | h | h | h | h | h <;> subst h <;> rfl

theorem parseDecimal_empty : parseDecimal "" = none := rfl

theorem parseSizeOverride_inrange (s : String) (v : ℚ)
    (hp : parseDecimal s = some v) (hlo : 3/10 ≤ v) (hhi : v ≤ 2) :
    parseSizeOverride (some s) = some v := by
  have hne : s ≠ "" := by
    intro hs
    rw [hs, parseDecimal_empty] at hp
    exact Option.noConfusion hp
  simp only [parseSizeOverride, hne, if_neg, hp]
  have : ¬(v < 3/10 ∨ v > 2) := by
    push_neg
    exact ⟨hlo, hhi⟩
  simp [hne, this]

/-- Fixture: a concrete user record. -/
def sampleUser : UserRecord :=
  ⟨"alice", some "Alice", some "hi", 3, 10, 5,
   "https://example.com/a.png", "https://github.com/alice",
   "2020-01-01T00:00:00Z"⟩

/-- Fixture: empty cache. -/
def noCache : String → Option UserRecord := fun _ => none

/-- Fixture: request query with no parameters. -/
def emptyQ : Query := {}

/-- Fixture: environment with an empty cache and an upstream that answers
404 for every username. -/
def envNF : Env := ⟨noCache, fun _ => UpstreamResult.response 404 sampleUser⟩

/-- Fixture: environment with an empty cache and an upstream that answers
200 with `sampleUser` for every username. -/
def envOk : Env := ⟨noCache, fun _ => UpstreamResult.response 200 sampleUser⟩

/-- Fixture: environment whose cache holds `sampleUser` under every key. -/
def envHit : Env :=
  ⟨fun _ => some sampleUser, fun _ => UpstreamResult.response 200 sampleUser⟩

/-! ### The claims -/

/-- C1: whenever the upstream data cannot be obtained (the cache misses and
the fetch returns a typed error), the `/rpg/:username` response body is the
error renderer's output and a well-formed SVG document, the HTTP status
mirrors the failure kind (400 invalid username, 404 not found, 429 rate
limited, a generic 4xx/5xx otherwise), and the response is a function of the
error kind, status and options alone — in particular the error renderer
takes no user record and cannot read any user-record field. -/
theorem c1_error_card_response (env : Env) (username : String) (q : Query)
    (kind : ErrorKind) (st : ℕ)
    (hmiss : env.cache username = none)
    (herr : (fetchGitHubUser env.upstream username).outcome =
      FetchOutcome.err kind st) :
    (handleRpg env username q).response.body =
      createErrorSvg kind (mkOptions q).theme ∧
    isSvgDocument ((handleRpg env username q).response.body) = true ∧
    (handleRpg env username q).response.status = st ∧
    kindStatusOk kind st ∧
    (∀ env₂ : Env, env₂.cache username = none →
      (fetchGitHubUser env₂.upstream username).outcome =
        FetchOutcome.err kind st →
      (handleRpg env₂ username q).response = (handleRpg env username q).response) := by
  refine ⟨?_, ?_, ?_, ?_, ?_⟩
  · simp [handleRpg, hmiss, herr]
  · simp [handleRpg, hmiss, herr, errorSvg_isSvg]
  · simp [handleRpg, hmiss, herr]
  · exact fetch_err_kindStatus env.upstream username kind st herr
  · intro env₂ h1 h2
    simp [handleRpg, hmiss, herr, h1, h2]

/-- C1 witness: a valid username whose upstream lookup answers 404 yields a
404 response whose body is a well-formed SVG error card. -/
theorem c1_witness :
    (handleRpg envNF "ghost" emptyQ).response.status = 404 ∧
    isSvgDocument ((handleRpg envNF "ghost" emptyQ).response.body) = true :=
  ⟨(c1_error_card_response envNF "ghost" emptyQ ErrorKind.notFound 404
      rfl (by decide)).2.2.1,
   (c1_error_card_response envNF "ghost" emptyQ ErrorKind.notFound 404
      rfl (by decide)).2.1⟩

/-- C2 counterexample: for the grammar-violating username `bad_user!`
(empty cache, healthy upstream), the claim "status 400 and no upstream call
and no cache read and no cache write" is false — the handler consults the
cache before any validation, so a cache read does occur. -/
theorem c2_counterexample :
    ¬ ((handleRpg envOk "bad_user!" emptyQ).response.status = 400 ∧
       (handleRpg envOk "bad_user!" emptyQ).upstreamCalled = false ∧
       (handleRpg envOk "bad_user!" emptyQ).cacheRead = false ∧
       (handleRpg envOk "bad_user!" emptyQ).cacheWritten = false) := by
  intro h
  exact absurd h.2.2.1 (by decide)

/-- C2 (amended): for a username violating the grammar, provided the cache
holds no entry under it (only fetch-validated usernames are ever written,
see `handleRpg_preserves_valid_keys`), the response status is 400, no
upstream network call is issued and no cache write occurs — but a cache
lookup is performed (the handler reads the cache before validating). -/
theorem c2_invalid_username_local (env : Env) (username : String) (q : Query)
    (hinv : validUsername username = false)
    (hmiss : env.cache username = none) :
    (handleRpg env username q).response.status = 400 ∧
    (handleRpg env username q).upstreamCalled = false ∧
    (handleRpg env username q).cacheWritten = false ∧
    (handleRpg env username q).cacheRead = true ∧
    (handleRpg env username q).cacheAfter = env.cache := by
  have hf : fetchGitHubUser env.upstream username =
      ⟨FetchOutcome.err ErrorKind.invalidUsername 400, false⟩ := by
    simp [fetchGitHubUser, hinv]
  refine ⟨?_, ?_, ?_, ?_, ?_⟩ <;> simp [handleRpg, hmiss, hf]

/-- C2 witness: the amended claim at the concrete request `/rpg/bad_user!`
against an empty cache. -/
theorem c2_witness :
    (handleRpg envOk "bad_user!" emptyQ).response.status = 400 ∧
    (handleRpg envOk "bad_user!" emptyQ).upstreamCalled = false ∧
    (handleRpg envOk "bad_user!" emptyQ).cacheWritten = false ∧
    (handleRpg envOk "bad_user!" emptyQ).cacheRead = true :=
  let h := c2_invalid_username_local envOk "bad_user!" emptyQ (by decide) rfl
  ⟨h.1, h.2.1, h.2.2.1, h.2.2.2.1⟩

/-- Cache writes only happen for usernames the upstream client validated:
`handleRpg` preserves the invariant that every cached key satisfies the
username grammar (this justifies the cache-miss hypothesis of the amended
C2 for invalid usernames). -/
theorem handleRpg_preserves_valid_keys (env : Env) (username : String)
    (q : Query)
    (hkeys : ∀ k, (env.cache k).isSome = true → validUsername k = true) :
    ∀ k, ((handleRpg env username q).cacheAfter k).isSome = true →
      validUsername k = true := by
  intro k hk
  cases hc : env.cache username
  case some u =>
    have he : (handleRpg env username q).cacheAfter = env.cache := by
      simp [handleRpg, hc]
    rw [he] at hk
    exact hkeys k hk
  case none =>
    cases hv : validUsername username
    case false =>
      have hf : fetchGitHubUser env.upstream username =
          ⟨FetchOutcome.err ErrorKind.invalidUsername 400, false⟩ := by
        simp [fetchGitHubUser, hv]
      have he : (handleRpg env username q).cacheAfter = env.cache := by
        simp [handleRpg, hc, hf]
      rw [he] at hk
      exact hkeys k hk
    case true =>
      cases ho : (fetchGitHubUser env.upstream username).outcome
      case ok u =>
        have he : (handleRpg env username q).cacheAfter =
            fun k2 => if k2 = username then some u else env.cache k2 := by
          simp [handleRpg, hc, ho]
        rw [he] at hk
        by_cases hku : k = username
        · subst hku; exact hv
        · simp only [if_neg hku] at hk
          exact hkeys k hk
      case err kind st =>
        have he : (handleRpg env username q).cacheAfter = env.cache := by
          simp [handleRpg, hc, ho]
        rw [he] at hk
        exact hkeys k hk

/-- C3: on a fresh cache hit the handler issues no upstream call and leaves
the cache untouched, and a second request for the same username within the
TTL (run against the post-state of the first) yields the identical response,
rendered from the same cached user record, again without an upstream call. -/
theorem c3_cache_hit_idempotent (env : Env) (username : String) (q : Query)
    (u : UserRecord) (hhit : env.cache username = some u) :
    (handleRpg env username q).upstreamCalled = false ∧
    (handleRpg env username q).cacheAfter = env.cache ∧
    (handleRpg env username q).response.status = 200 ∧
    (handleRpg env username q).response.body = generateRpgCard u (mkOptions q) ∧
    (handleRpg ⟨(handleRpg env username q).cacheAfter, env.upstream⟩ username q).response =
      (handleRpg env username q).response ∧
    (handleRpg ⟨(handleRpg env username q).cacheAfter, env.upstream⟩ username q).upstreamCalled = false := by
  refine ⟨?_, ?_, ?_, ?_, ?_, ?_⟩ <;> simp [handleRpg, hhit]

/-- C3 witness: a cache populated with `sampleUser` under `alice` serves the
request without an upstream call and leaves the cache unchanged. -/
theorem c3_witness :
    (handleRpg envHit "alice" emptyQ).upstreamCalled = false ∧
    (handleRpg envHit "alice" emptyQ).cacheAfter = envHit.cache ∧
    (handleRpg envHit "alice" emptyQ).response.status = 200 :=
  let h := c3_cache_hit_idempotent envHit "alice" emptyQ sampleUser rfl
  ⟨h.1, h.2.1, h.2.2.1⟩

/-- The same query with every `sz_*` parameter removed. -/
def clearSz (q : Query) : Query :=
  { q with szTitle := none, szLevel := none, szUsername := none,
           szBio := none, szStatLabel := none, szStatValue := none,
           szBarLabel := none }

theorem parseSizeOverride_none (s : Option String)
    (h : s = none ∨ ∃ str, s = some str ∧ (parseDecimal str = none ∨
      ∃ v, parseDecimal str = some v ∧ (v < 3/10 ∨ 2 < v))) :
    parseSizeOverride s = none := by
  rcases h with h | ⟨str, hs, h⟩
  · rw [h]; rfl
  · subst hs
    rcases h with hp | ⟨v, hp, hout⟩
    · by_cases hse : str = "" <;> simp [parseSizeOverride, hse, hp]
    · have hse : str ≠ "" := by
        intro hemp
        rw [hemp, parseDecimal_empty] at hp
        exact Option.noConfusion hp
      have : v < 3/10 ∨ v > 2 := hout
      simp [parseSizeOverride, hse, hp, this]

/-- C4: for each `sz_*` query parameter, a value parsing to a number in the
closed range `[0.3, 2.0]` makes every rendered text element of that role use
the role's base size scaled linearly by that value; an absent, non-numeric
or out-of-range value leaves the multiplier at 1.0; and no `sz_*` value ever
changes the response status (the request is never rejected). -/
theorem c4_size_override_scaling (q : Query) (r : Role) :
    (∀ s v, szQuery q r = some s → parseDecimal s = some v →
      3/10 ≤ v → v ≤ 2 →
      ∀ (u : UserRecord), ∀ e ∈ (buildCard u (mkOptions q)).texts,
        e.role = r → e.fontSize = baseSize r * v) ∧
    ((szQuery q r = none ∨
      ∃ s, szQuery q r = some s ∧ (parseDecimal s = none ∨
        ∃ v, parseDecimal s = some v ∧ (v < 3/10 ∨ 2 < v))) →
      ∀ (u : UserRecord), ∀ e ∈ (buildCard u (mkOptions q)).texts,
        e.role = r → e.fontSize = baseSize r * 1) ∧
    (∀ (env : Env) (username : String),
      (handleRpg env username q).response.status =
      (handleRpg env username (clearSz q)).response.status) := by
  refine ⟨?_, ?_, ?_⟩
  · intro s v hs hp hlo hhi u e he hr
    have h1 := buildCard_fontSize u (mkOptions q) e he
    rw [h1, hr, roleFontSize, override_eq_parse, hs,
      parseSizeOverride_inrange s v hp hlo hhi]
    rfl
  · intro hcase u e he hr
    have h1 := buildCard_fontSize u (mkOptions q) e he
    rw [h1, hr, roleFontSize, override_eq_parse,
      parseSizeOverride_none (szQuery q r) hcase]
    rfl
  · intro env username
    exact handleRpg_status_indep env username q (clearSz q)

theorem parseDecimal_three_halves : parseDecimal "1.5" = some (3/2) := by
  have h : "1.5".data = ['1', '.', '5'] := rfl
  simp [parseDecimal, h, natOfDigits]
  norm_num

theorem parseDecimal_five_halves : parseDecimal "2.5" = some (5/2) := by
  have h : "2.5".data = ['2', '.', '5'] := rfl
  simp [parseDecimal, h, natOfDigits]
  norm_num

/-- C4 witness: `sz_bio=1.5` renders the bio element of the sample card at
1.5 × its base size, and `sz_bio=2.5` (out of range) leaves the multiplier
at 1. -/
theorem c4_witness :
    roleFontSize (mkOptions { szBio := some "1.5" }) Role.bio =
      baseSize Role.bio * (3/2) ∧
    roleFontSize (mkOptions { szBio := some "2.5" }) Role.bio =
      baseSize Role.bio * 1 :=
  ⟨(c4_size_override_scaling { szBio := some "1.5" } Role.bio).1 "1.5" (3/2)
      rfl parseDecimal_three_halves (by norm_num) (by norm_num) sampleUser
      ⟨Role.bio, roleFontSize (mkOptions { szBio := some "1.5" }) Role.bio,
        escapeXml (sampleUser.bio.getD "")⟩ (by simp [buildCard]) rfl,
   (c4_size_override_scaling { szBio := some "2.5" } Role.bio).2.1
      (Or.inr ⟨"2.5", rfl, Or.inr ⟨5/2, parseDecimal_five_halves,
        Or.inr (by norm_num)⟩⟩)
      sampleUser
      ⟨Role.bio, roleFontSize (mkOptions { szBio := some "2.5" }) Role.bio,
        escapeXml (sampleUser.bio.getD "")⟩ (by simp [buildCard]) rfl⟩

/-- C5: on a cache miss where the upstream answers 404 for a
grammar-conforming username, the handler writes nothing to the cache (the
cache after the request is the cache before it) and responds 404 with a
valid SVG error card. -/
theorem c5_not_found_no_cache_write (env : Env) (username : String)
    (q : Query) (u : UserRecord)
    (hv : validUsername username = true)
    (hmiss : env.cache username = none)
    (hup : env.upstream username = UpstreamResult.response 404 u) :
    (handleRpg env username q).cacheWritten = false ∧
    (handleRpg env username q).cacheAfter = env.cache ∧
    (handleRpg env username q).response.status = 404 ∧
    isSvgDocument ((handleRpg env username q).response.body) = true := by
  have hf : fetchGitHubUser env.upstream username =
      ⟨FetchOutcome.err ErrorKind.notFound 404, true⟩ := by
    simp [fetchGitHubUser, hv, hup]
  refine ⟨?_, ?_, ?_, ?_⟩ <;> simp [handleRpg, hmiss, hf, errorSvg_isSvg]

/-- C5 witness: the concrete request `/rpg/does-not-exist-999` against an
empty cache and a 404-answering upstream. -/
theorem c5_witness :
    (handleRpg envNF "does-not-exist-999" emptyQ).cacheWritten = false ∧
    (handleRpg envNF "does-not-exist-999" emptyQ).response.status = 404 :=
  let h := c5_not_found_no_cache_write envNF "does-not-exist-999" emptyQ
    sampleUser (by decide) rfl rfl
  ⟨h.1, h.2.2.1⟩

/-- C6: for a grammar-conforming username, `fetchGitHubUser` (a total
function — it cannot throw) returns either a success whose record's `login`
is the requested username (given that the upstream profile endpoint answers
with the requested account's record) or a typed error of one of the four
kinds. -/
theorem c6_fetch_typed_outcome (up : String → UpstreamResult)
    (username : String)
    (hv : validUsername username = true)
    (hcoh : ∀ st u, up username = UpstreamResult.response st u →
      u.login = username) :
    (∃ u, (fetchGitHubUser up username).outcome = FetchOutcome.ok u ∧
      u.login = username) ∨
    (∃ k st, (fetchGitHubUser up username).outcome = FetchOutcome.err k st ∧
      (k = ErrorKind.notFound ∨ k = ErrorKind.rateLimited ∨
       k = ErrorKind.upstreamError ∨ k = ErrorKind.invalidUsername)) := by
  cases hr : up username
  case failure =>
    exact Or.inr ⟨ErrorKind.upstreamError, 500,
      by simp [fetchGitHubUser, hv, hr], by simp⟩
  case response st u =>
    by_cases h404 : st = 404
    · exact Or.inr ⟨ErrorKind.notFound, 404,
        by simp [fetchGitHubUser, hv, hr, h404], by simp⟩
    · by_cases hrl : st = 403 ∨ st = 429
      · exact Or.inr ⟨ErrorKind.rateLimited, 429,
          by simp [fetchGitHubUser, hv, hr, h404, hrl], by simp⟩
      · by_cases h2 : 200 ≤ st ∧ st < 300
        · exact Or.inl ⟨u,
            by simp [fetchGitHubUser, hv, hr, h404, hrl, h2],
            hcoh st u hr⟩
        · exact Or.inr ⟨ErrorKind.upstreamError, 500,
            by simp [fetchGitHubUser, hv, hr, h404, hrl, h2], by simp⟩

/-- C6 witness: a 200-answering upstream holding the `alice` record gives a
success outcome with login `alice`. -/
theorem c6_witness :
    (∃ u, (fetchGitHubUser envOk.upstream "alice").outcome =
        FetchOutcome.ok u ∧ u.login = "alice") ∨
    (∃ k st, (fetchGitHubUser envOk.upstream "alice").outcome =
        FetchOutcome.err k st ∧
      (k = ErrorKind.notFound ∨ k = ErrorKind.rateLimited ∨
       k = ErrorKind.upstreamError ∨ k = ErrorKind.invalidUsername)) :=
  c6_fetch_typed_outcome envOk.upstream "alice" (by decide)
    (fun st u h => by cases h; rfl)

/-- C7: the `/preview/:username` route rejects a username violating the
grammar with a 400 plain-text response before any rendering, and otherwise
answers 200 with the HTML preview page built over the escaped username. -/
theorem c7_preview_validation (username : String) :
    (validUsername username = false →
      handlePreview username =
        ⟨400, "Invalid username format", false⟩) ∧
    (validUsername username = true →
      (handlePreview username).status = 200 ∧
      (handlePreview username).body = previewHtml (escapeXml username) ∧
      (handlePreview username).isHtml = true) := by
  constructor <;> intro h <;> simp [handlePreview, h]

/-- C7 witness: `/preview/bad_user!` is rejected with 400 and
`/preview/alice` is served with 200. -/
theorem c7_witness :
    handlePreview "bad_user!" = ⟨400, "Invalid username format", false⟩ ∧
    (handlePreview "alice").status = 200 :=
  ⟨(c7_preview_validation "bad_user!").1 (by decide),
   ((c7_preview_validation "alice").2 (by decide)).1⟩

/-- C8: an absent `font` parameter, or any value that is not a key of the
fixed registry, makes the rendering options use the default font entry; a
registry key is used unchanged. -/
theorem c8_font_registry_fallback (q : Query) :
    (q.font = none → (mkOptions q).font = DEFAULT_FONT) ∧
    (∀ f, q.font = some f → (FONTS.lookup f).isSome = true →
      (mkOptions q).font = f) ∧
    (∀ f, q.font = some f → (FONTS.lookup f).isSome = false →
      (mkOptions q).font = DEFAULT_FONT) := by
  refine ⟨?_, ?_, ?_⟩
  · intro h
    simp [mkOptions, selectFont, h]
  · intro f hq hl
    by_cases hf : f = ""
    · subst hf
      exact absurd hl (by decide)
    · simp [mkOptions, selectFont, hq, hf, hl]
  · intro f hq hl
    simp only [Bool.not_eq_true, Option.not_isSome, Option.isNone_iff_eq_none] at hl
    simp [mkOptions, selectFont, hq, hl]

/-- C8 witness: `font=silkscreen` (a registry key) is kept, `font=comic`
(not a key) and an absent parameter fall back to the default entry. -/
theorem c8_witness :
    (mkOptions { font := some "silkscreen" }).font = "silkscreen" ∧
    (mkOptions { font := some "comic" }).font = DEFAULT_FONT ∧
    (mkOptions emptyQ).font = DEFAULT_FONT :=
  ⟨(c8_font_registry_fallback { font := some "silkscreen" }).2.1 "silkscreen"
      rfl (by decide),
   (c8_font_registry_fallback { font := some "comic" }).2.2 "comic"
      rfl (by decide),
   (c8_font_registry_fallback emptyQ).1 rfl⟩

/-- C9: any `theme` value other than exactly `light` (absent,
differently-cased or arbitrary) renders dark, any `lang` value other than
exactly `ja` renders English, and no theme/lang value ever changes the
response status (the request is never rejected). -/
theorem c9_theme_lang_defaults (q : Query) :
    (q.theme ≠ some "light" → (mkOptions q).theme = Theme.dark) ∧
    (q.lang ≠ some "ja" → (mkOptions q).lang = Lang.en) ∧
    (∀ (env : Env) (username : String) (t l : Option String),
      (handleRpg env username { q with theme := t, lang := l }).response.status =
      (handleRpg env username q).response.status) := by
  refine ⟨?_, ?_, ?_⟩
  · intro h
    simp [mkOptions, h]
  · intro h
    simp [mkOptions, h]
  · intro env username t l
    exact handleRpg_status_indep env username _ q

/-- C9 witness: `theme=Light` (wrong case) renders dark and `lang=JA`
(wrong case) renders English. -/
theorem c9_witness :
    (mkOptions { theme := some "Light", lang := some "JA" }).theme = Theme.dark ∧
    (mkOptions { theme := some "Light", lang := some "JA" }).lang = Lang.en :=
  ⟨(c9_theme_lang_defaults { theme := some "Light", lang := some "JA" }).1
      (by decide),
   (c9_theme_lang_defaults { theme := some "Light", lang := some "JA" }).2.1
      (by decide)⟩

/-- C10: every `/rpg` response carries `Content-Type: image/svg+xml`; a
successful card is sent with status 200 and
`Cache-Control: public, max-age=300`, while every failure (error card) is
sent with `Cache-Control: no-cache`. -/
theorem c10_response_headers (env : Env) (username : String) (q : Query) :
    (handleRpg env username q).response.contentType = "image/svg+xml" ∧
    ((handleRpg env username q).succeeded = true →
      (handleRpg env username q).response.status = 200 ∧
      (handleRpg env username q).response.cacheControl = "public, max-age=300") ∧
    ((handleRpg env username q).succeeded = false →
      (handleRpg env username q).response.cacheControl = "no-cache") := by
  cases hc : env.cache username
  case some u =>
    refine ⟨?_, ?_, ?_⟩ <;> simp [handleRpg, hc]
  case none =>
    cases ho : (fetchGitHubUser env.upstream username).outcome <;>
      refine ⟨?_, ?_, ?_⟩ <;> simp [handleRpg, hc, ho]

/-- C10 witness: a cache hit is served with the public caching header, a
404 failure with `no-cache`; both as `image/svg+xml`. -/
theorem c10_witness :
    (handleRpg envHit "alice" emptyQ).response.cacheControl =
      "public, max-age=300" ∧
    (handleRpg envNF "ghost" emptyQ).response.cacheControl = "no-cache" ∧
    (handleRpg envHit "alice" emptyQ).response.contentType = "image/svg+xml" :=
  ⟨((c10_response_headers envHit "alice" emptyQ).2.1 rfl).2,
   (c10_response_headers envNF "ghost" emptyQ).2.2 rfl,
   (c10_response_headers envHit "alice" emptyQ).1⟩

end CardWorker
